import Mathlib

/-!
Verification of the error-propagation benchmark repository.

The repository implements one text-normalization / datetime-validation
pipeline three times (raising exceptions, paired `(value, error)` return,
tagged-union return), each at two call-stack depths, plus a benchmark runner
and stats aggregation.  This file shallowly embeds those Python modules:

* Python `str` values are modelled as `List Char` (`PyStr`); the string
  methods used by the pipeline (`split`/`join`, `strip`, `replace`,
  `title`/`lower`/`upper`) are modelled character-by-character over the
  ASCII fragment the corpus lives in.
* Python's dynamically typed message values are modelled by the closed
  variant type `Val` (mapping / str / int / bool / None / list).
* `datetime.strptime(s, "%Y-%m-%d %H:%M:%S")` is modelled after CPython's
  `_strptime` regex semantics (field-by-field digit matching, whitespace
  runs between date and time, trailing-data check, then calendar-day
  validation in the `datetime` constructor).
* Exceptions are modelled by the `Exc` variant; the raising strategy
  returns `Except Exc DateTime`, the paired strategy
  `Option DateTime × Option Exc`, the union strategy `PyUnion`.

Floating-point times in the aggregation code are modelled by exact
rationals (the claims about them concern guards and exact quotients,
not rounding).
-/

/-- Python `str`, modelled as its character sequence. -/
abbrev PyStr := List Char

/-- The ASCII whitespace characters recognised by Python's `str.split()` /
`str.strip()` (space, tab, newline, carriage return, vertical tab, form feed). -/
def isPySpace (c : Char) : Bool :=
  c == ' ' || c == Char.ofNat 9 || c == Char.ofNat 10 || c == Char.ofNat 13 ||
  c == Char.ofNat 11 || c == Char.ofNat 12

/-- Accumulator worker for `pySplit`; `acc` holds the current token reversed. -/
def pySplitAux : PyStr → PyStr → List PyStr
  | [], [] => []
  | [], acc => [acc.reverse]
  | c :: cs, acc =>
    if isPySpace c then
      match acc with
      | [] => pySplitAux cs []
      | _ => acc.reverse :: pySplitAux cs []
    else pySplitAux cs (c :: acc)

/-- Python `s.split()` (no argument): split on runs of whitespace, dropping
empty tokens. -/
def pySplit (l : PyStr) : List PyStr := pySplitAux l []

/-- Python `' '.join(tokens)`. -/
def joinSp : List PyStr → PyStr
  | [] => []
  | [t] => t
  | t :: ts => t ++ ' ' :: joinSp ts

/-- The idiom `' '.join(s.split())` used throughout the pipeline. -/
def collapseWs (l : PyStr) : PyStr := joinSp (pySplit l)

/-- Remove trailing characters satisfying `p`. -/
def dropTrailing (p : Char → Bool) (l : PyStr) : PyStr :=
  (l.reverse.dropWhile p).reverse

/-- Python `s.strip()` (whitespace at both ends). -/
def pyStrip (l : PyStr) : PyStr := dropTrailing isPySpace (l.dropWhile isPySpace)

/-- Python `s.strip(c)` for a single strip character. -/
def pyStripChar (c : Char) (l : PyStr) : PyStr :=
  dropTrailing (fun x => x == c) (l.dropWhile (fun x => x == c))

/-- Python `s.replace(pat, rep)`: left-to-right, non-overlapping.  The fuel
argument is the string length, which bounds the number of steps since each
step consumes at least one character of a nonempty pattern. -/
def pyReplaceFuel : Nat → PyStr → PyStr → PyStr → PyStr
  | 0, _, _, s => s
  | _ + 1, _, _, [] => []
  | n + 1, pat, rep, c :: cs =>
    if pat ≠ [] && pat.isPrefixOf (c :: cs) then
      rep ++ pyReplaceFuel n pat rep ((c :: cs).drop pat.length)
    else c :: pyReplaceFuel n pat rep cs

/-- Python `s.replace(pat, rep)` for a nonempty pattern. -/
def pyReplace (pat rep s : PyStr) : PyStr := pyReplaceFuel s.length pat rep s

/-- Python `s.lower()` (ASCII fragment). -/
def pyLower (l : PyStr) : PyStr := l.map Char.toLower

/-- Python `s.upper()` (ASCII fragment). -/
def pyUpper (l : PyStr) : PyStr := l.map Char.toUpper

/-- Worker for `pyTitle`: the flag records whether the previous character was
alphabetic (cased). -/
def pyTitleAux : Bool → PyStr → PyStr
  | _, [] => []
  | prev, c :: cs =>
    (if c.isAlpha then (if prev then c.toLower else c.toUpper) else c)
      :: pyTitleAux c.isAlpha cs

/-- Python `s.title()` (ASCII fragment): a cased character is uppercased when
it follows a non-cased character, lowercased otherwise. -/
def pyTitle (l : PyStr) : PyStr := pyTitleAux false l

/-- Escape one character for Python `repr` of a string quoted with `q`
(printable ASCII fragment: backslash, the quote character, tab, newline,
carriage return). -/
def escapeChar (q c : Char) : PyStr :=
  if c == Char.ofNat 92 then [Char.ofNat 92, Char.ofNat 92]
  else if c == q then [Char.ofNat 92, q]
  else if c == Char.ofNat 9 then [Char.ofNat 92, 't']
  else if c == Char.ofNat 10 then [Char.ofNat 92, 'n']
  else if c == Char.ofNat 13 then [Char.ofNat 92, 'r']
  else [c]

/-- Python `repr` of a string: single quotes by default, double quotes when
the string contains a single quote but no double quote. -/
def pyQuoteRepr (s : PyStr) : PyStr :=
  let q := if s.contains (Char.ofNat 39) && !(s.contains (Char.ofNat 34))
           then Char.ofNat 34 else Char.ofNat 39
  q :: (s.foldr (fun c acc => escapeChar q c ++ acc) [q])

/-- The dynamically typed Python values a `Message` can take: a mapping with
string keys, a string, an int, a bool, `None`, or a list.  (The shipped
corpus also mentions floats; they play no role in any claim and are omitted
from the model.) -/
inductive Val where
  | vstr (s : PyStr)
  | vint (n : Int)
  | vbool (b : Bool)
  | vnone
  | vlist (xs : List Val)
  | vdict (kvs : List (String × Val))

/-- Python `type(v).__name__`. -/
def Val.typeName : Val → PyStr
  | .vstr _ => "str".data
  | .vint _ => "int".data
  | .vbool _ => "bool".data
  | .vnone => "NoneType".data
  | .vlist _ => "list".data
  | .vdict _ => "dict".data

/-- Python `isinstance(v, dict)`. -/
def Val.isDict : Val → Bool
  | .vdict _ => true
  | _ => false

mutual
/-- Python `repr(v)` for the modelled value types (printable ASCII fragment). -/
def pyRepr : Val → PyStr
  | .vstr s => pyQuoteRepr s
  | .vint n => (toString n).data
  | .vbool b => if b then "True".data else "False".data
  | .vnone => "None".data
  | .vlist xs => Char.ofNat 91 :: (joinCommaSp (pyReprList xs) ++ [Char.ofNat 93])
  | .vdict kvs => Char.ofNat 123 :: (joinCommaSp (pyReprFields kvs) ++ [Char.ofNat 125])

/-- Python `repr` of each element of a list value. -/
def pyReprList : List Val → List PyStr
  | [] => []
  | v :: vs => pyRepr v :: pyReprList vs

/-- Python `repr` of each `key: value` entry of a dict value. -/
def pyReprFields : List (String × Val) → List PyStr
  | [] => []
  | (k, v) :: kvs => (pyQuoteRepr k.data ++ ": ".data ++ pyRepr v) :: pyReprFields kvs

/-- Python `', '.join(pieces)`, used by `repr` of containers. -/
def joinCommaSp : List PyStr → PyStr
  | [] => []
  | [t] => t
  | t :: ts => t ++ ',' :: ' ' :: joinCommaSp ts
end

/-- Python `str(v)`: identity on strings, `repr` on everything else among the
modelled types. -/
def pyStr : Val → PyStr
  | .vstr s => s
  | v => pyRepr v

/-- Python `d.get(k, dflt)` on a mapping value (keys are unique in a Python
dict, so first-match lookup is faithful). -/
def dictGet (kvs : List (String × Val)) (k : String) (dflt : Val) : Val :=
  match kvs.find? (fun kv => kv.1 == k) with
  | some kv => kv.2
  | none => dflt

/-- The recoverable Python exceptions arising in this program. -/
inductive Exc where
  | typeError (msg : PyStr)
  | valueError (msg : PyStr)
  | keyError (msg : PyStr)
deriving DecidableEq

/-- Python `type(e).__name__`, as recorded by the runners. -/
def Exc.pyTypeName : Exc → String
  | .typeError _ => "TypeError"
  | .valueError _ => "ValueError"
  | .keyError _ => "KeyError"

/-- Python `tc[k]` on a test-case record: `KeyError` when the key is absent,
`TypeError` when the record is not a mapping. -/
def pySubscript (tc : Val) (k : String) : Except Exc Val :=
  match tc with
  | .vdict kvs =>
    match kvs.find? (fun kv => kv.1 == k) with
    | some kv => .ok kv.2
    | none => .error (.keyError (pyQuoteRepr k.data))
  | v => .error (.typeError (pyStr v ++ " object is not subscriptable".data))

/-- The parsed calendar timestamp produced by `datetime.strptime`. -/
structure DateTime where
  year : Nat
  month : Nat
  day : Nat
  hour : Nat
  minute : Nat
  second : Nat
deriving DecidableEq

/-- Gregorian leap-year rule used by `datetime`. -/
def isLeap (y : Nat) : Bool := y % 4 == 0 && (y % 100 != 0 || y % 400 == 0)

/-- Days in a month, as validated by the `datetime` constructor. -/
def daysInMonth (y m : Nat) : Nat :=
  if m == 2 then (if isLeap y then 29 else 28)
  else if m == 4 || m == 6 || m == 9 || m == 11 then 30
  else 31

/-- Numeric value of an ASCII digit. -/
def digitVal (c : Char) : Option Nat :=
  if c.isDigit then some (c.toNat - 48) else none

/-- Field `%Y`: exactly four digits (CPython `_strptime` regex `\d\d\d\d`). -/
def parse4Digits : PyStr → Option (Nat × PyStr)
  | a :: b :: c :: d :: rest => do
    let va ← digitVal a
    let vb ← digitVal b
    let vc ← digitVal c
    let vd ← digitVal d
    some (va * 1000 + vb * 100 + vc * 10 + vd, rest)
  | _ => none

/-- A two-digits-preferred numeric field, as matched by the CPython
`_strptime` regexes (e.g. `%m` is `1[0-2]|0[1-9]|[1-9]`): consume two digits
when their value is admissible as a two-digit form, else one digit when
admissible as a one-digit form.  Equivalent to the regex with backtracking
because every field is followed by a non-digit separator or the end check. -/
def parse2or1 (allow2 allow1 : Nat → Bool) : PyStr → Option (Nat × PyStr)
  | a :: b :: rest =>
    match digitVal a, digitVal b with
    | some va, some vb =>
      if allow2 (10 * va + vb) then some (10 * va + vb, rest)
      else if allow1 va then some (va, b :: rest)
      else none
    | some va, none => if allow1 va then some (va, b :: rest) else none
    | none, _ => none
  | [a] =>
    match digitVal a with
    | some va => if allow1 va then some (va, []) else none
    | none => none
  | [] => none

/-- Match one literal character. -/
def expectChar (c : Char) : PyStr → Option PyStr
  | x :: r => if x == c then some r else none
  | [] => none

/-- Whitespace in a `strptime` format matches a run of one or more
whitespace characters (`\s+`). -/
def expectWs1 : PyStr → Option PyStr
  | x :: r => if isPySpace x then some (r.dropWhile isPySpace) else none
  | [] => none

/-- Structural match of `"%Y-%m-%d %H:%M:%S"` against a prefix of `s`,
returning the six fields and the unconsumed suffix. -/
def strptimeParse (s : PyStr) :
    Option (Nat × Nat × Nat × Nat × Nat × Nat × PyStr) := do
  let (y, r1) ← parse4Digits s
  let r2 ← expectChar '-' r1
  let (mo, r3) ← parse2or1 (fun v => 1 ≤ v && v ≤ 12) (fun v => 1 ≤ v && v ≤ 9) r2
  let r4 ← expectChar '-' r3
  let (d, r5) ← parse2or1 (fun v => 1 ≤ v && v ≤ 31) (fun v => 1 ≤ v && v ≤ 9) r4
  let r6 ← expectWs1 r5
  let (h, r7) ← parse2or1 (fun v => v ≤ 23) (fun _ => true) r6
  let r8 ← expectChar ':' r7
  let (mi, r9) ← parse2or1 (fun v => v ≤ 59) (fun _ => true) r8
  let r10 ← expectChar ':' r9
  let (se, r11) ← parse2or1 (fun v => v ≤ 59) (fun _ => true) r10
  some (y, mo, d, h, mi, se, r11)

/-- Error message for a structural mismatch (CPython uses `%r` interpolation). -/
def timeDataMsg (s : PyStr) : PyStr :=
  "time data ".data ++ pyQuoteRepr s ++ " does not match format ".data ++
    pyQuoteRepr "%Y-%m-%d %H:%M:%S".data

/-- Model of `datetime.strptime(s, "%Y-%m-%d %H:%M:%S")`: structural match, trailing
data check, then `datetime` construction which validates the year minimum and
the day of month.  Errors carry the CPython `ValueError` message. -/
def strptimeYmdHMS (s : PyStr) : Except PyStr DateTime :=
  match strptimeParse s with
  | none => .error (timeDataMsg s)
  | some (y, mo, d, h, mi, se, rest) =>
    if rest ≠ [] then .error ("unconverted data remains: ".data ++ rest)
    else if y == 0 then .error "year 0 is out of range".data
    else if daysInMonth y mo < d then .error "day is out of range for month".data
    else .ok ⟨y, mo, d, h, mi, se⟩

/-! ## `benchmark_exception.py`: the raising strategy

Raised exceptions propagate without the intermediate stages' participation;
the shallow embedding renders this with `Except Exc`, where an intermediate
stage simply returns the callee's result unchanged. -/

/-- Level 3 (shallow): the only level that raises — validates and parses.
The argument is dynamically typed in Python, hence `Val` here so the
`isinstance` check is live. -/
def validate_format_shallow_exc (datetime_str : Val) : Except Exc DateTime :=
  match datetime_str with
  | .vstr s =>
    if s.isEmpty then .error (.valueError "Empty datetime string".data)
    else
      match strptimeYmdHMS s with
      | .ok dt => .ok dt
      | .error e => .error (.valueError ("Failed to parse datetime: ".data ++ e))
  | v => .error (.typeError ("Expected string, got ".data ++ v.typeName))

/-- Level 2 (shallow): text normalization, no errors raised. -/
def parse_datetime_shallow_exc (timestamp_str : PyStr) : Except Exc DateTime :=
  let normalized := collapseWs timestamp_str
  let cleaned := pyReplace ['|'] [' '] (pyReplace [';'] [] (pyReplace [','] [] normalized))
  let cleaned2 := collapseWs cleaned
  let temp := pyLower (pyTitle cleaned2)
  let parts := pySplit temp
  let rejoined := joinSp parts
  validate_format_shallow_exc (.vstr rejoined)

/-- Level 1 (shallow): timestamp extraction with text processing. -/
def parse_message_shallow_exc (message : Val) : Except Exc DateTime :=
  let _msg_str := match message with
    | .vdict _ => ([] : PyStr)
    | m => pyStr m
  let timestamp : Val := match message with
    | .vdict kvs => dictGet kvs "timestamp" (.vstr [])
    | _ => .vstr []
  let timestamp_str := match timestamp with
    | .vnone => ([] : PyStr)
    | t => pyStr t
  let cleaned := pyReplace [Char.ofNat 13] [' '] (pyReplace [Char.ofNat 10] [' ']
    (pyReplace [Char.ofNat 9] [' '] (pyStrip timestamp_str)))
  let cleaned2 := collapseWs cleaned
  let cleaned3 := pyStripChar (Char.ofNat 39) (pyStripChar (Char.ofNat 34) cleaned2)
  parse_datetime_shallow_exc cleaned3

/-- Level 5 (deep): same validation stage as the shallow variant. -/
def validate_format_deep_exc (datetime_str : Val) : Except Exc DateTime :=
  match datetime_str with
  | .vstr s =>
    if s.isEmpty then .error (.valueError "Empty datetime string".data)
    else
      match strptimeYmdHMS s with
      | .ok dt => .ok dt
      | .error e => .error (.valueError ("Failed to parse datetime: ".data ++ e))
  | v => .error (.typeError ("Expected string, got ".data ++ v.typeName))

/-- Level 4 (deep): text normalization, no errors raised. -/
def parse_datetime_deep_exc (timestamp_str : PyStr) : Except Exc DateTime :=
  let normalized := collapseWs timestamp_str
  let cleaned := pyReplace ['|'] [' '] (pyReplace [';'] [] (pyReplace [','] [] normalized))
  let cleaned2 := collapseWs cleaned
  let temp := pyLower (pyTitle cleaned2)
  let parts := pySplit temp
  let rejoined := joinSp parts
  validate_format_deep_exc (.vstr rejoined)

/-- Level 3 (deep): timestamp extraction; note it does not collapse internal
whitespace nor strip quotes, unlike the shallow level 1. -/
def parse_message_deep_exc (message : Val) : Except Exc DateTime :=
  let timestamp : Val := match message with
    | .vdict kvs => dictGet kvs "timestamp" (.vstr [])
    | _ => .vstr []
  let timestamp_str := match timestamp with
    | .vnone => ([] : PyStr)
    | t => pyStr t
  let normalized := pyStrip timestamp_str
  let cleaned := pyReplace [Char.ofNat 13] [' '] (pyReplace [Char.ofNat 10] [' ']
    (pyReplace [Char.ofNat 9] [' '] normalized))
  parse_datetime_deep_exc cleaned

/-- Level 2 (deep): field concatenation whose output is discarded. -/
def validate_message_deep_exc (message : Val) : Except Exc DateTime :=
  let msg_dict : List (String × Val) := match message with
    | .vdict kvs => kvs
    | _ => []
  let str_values := (msg_dict.map (fun kv => kv.2)).filterMap (fun v =>
    match v with
    | .vnone => none
    | v => some (pyStr v))
  let concatenated := joinSp str_values
  let _processed := pyLower (pyUpper (pyLower (pyStrip concatenated)))
  parse_message_deep_exc (.vdict msg_dict)

/-- Level 1 (deep): top-level cosmetic normalization, output discarded. -/
def process_batch_deep_exc (message : Val) : Except Exc DateTime :=
  let msg_str := pyStr message
  let processed := pyReplace [' ', ' '] [' '] (pyStrip msg_str)
  let _char_count := processed.length
  let _normalized := pyLower (pyUpper (pyLower processed))
  validate_message_deep_exc message

/-- The mutable tally each runner builds per batch. -/
structure Results where
  success : Nat
  failure : Nat
  errors : List String
deriving DecidableEq

/-- Loop of `run_shallow_exc`: the try block covers both the `"message"`
subscript and the parse, so either failure is tallied and the batch
continues. -/
def runExcShallowLoop : List Val → Results → Results
  | [], acc => acc
  | test_case :: rest, acc =>
    match pySubscript test_case "message" with
    | .error e => runExcShallowLoop rest
        { acc with failure := acc.failure + 1, errors := acc.errors ++ [e.pyTypeName] }
    | .ok message =>
      match parse_message_shallow_exc message with
      | .ok _ => runExcShallowLoop rest { acc with success := acc.success + 1 }
      | .error e => runExcShallowLoop rest
          { acc with failure := acc.failure + 1, errors := acc.errors ++ [e.pyTypeName] }

/-- Runner `run_shallow_exc(test_cases)`. -/
def run_shallow_exc (test_cases : List Val) : Results :=
  runExcShallowLoop test_cases ⟨0, 0, []⟩

/-- Loop of `run_deep_exc`. -/
def runExcDeepLoop : List Val → Results → Results
  | [], acc => acc
  | test_case :: rest, acc =>
    match pySubscript test_case "message" with
    | .error e => runExcDeepLoop rest
        { acc with failure := acc.failure + 1, errors := acc.errors ++ [e.pyTypeName] }
    | .ok message =>
      match process_batch_deep_exc message with
      | .ok _ => runExcDeepLoop rest { acc with success := acc.success + 1 }
      | .error e => runExcDeepLoop rest
          { acc with failure := acc.failure + 1, errors := acc.errors ++ [e.pyTypeName] }

/-- Runner `run_deep_exc(test_cases)`. -/
def run_deep_exc (test_cases : List Val) : Results :=
  runExcDeepLoop test_cases ⟨0, 0, []⟩

/-! ## `benchmark_tuple.py`: the paired-return strategy

Every stage returns `(result, error)`; each caller tests the error slot and
forwards it explicitly. -/

/-- Level 3 (shallow): the only level that returns errors. -/
def validate_format_shallow_tuple (datetime_str : Val) : Option DateTime × Option Exc :=
  match datetime_str with
  | .vstr s =>
    if s.isEmpty then (none, some (.valueError "Empty datetime string".data))
    else
      match strptimeYmdHMS s with
      | .ok dt => (some dt, none)
      | .error e => (none, some (.valueError ("Failed to parse datetime: ".data ++ e)))
  | v => (none, some (.typeError ("Expected string, got ".data ++ v.typeName)))

/-- Level 2 (shallow): text normalization, explicit error forwarding. -/
def parse_datetime_shallow_tuple (timestamp_str : PyStr) : Option DateTime × Option Exc :=
  let normalized := collapseWs timestamp_str
  let cleaned := pyReplace ['|'] [' '] (pyReplace [';'] [] (pyReplace [','] [] normalized))
  let cleaned2 := collapseWs cleaned
  let temp := pyLower (pyTitle cleaned2)
  let parts := pySplit temp
  let rejoined := joinSp parts
  match validate_format_shallow_tuple (.vstr rejoined) with
  | (_, some err) => (none, some err)
  | (result, none) => (result, none)

/-- Level 1 (shallow): timestamp extraction, explicit error forwarding. -/
def parse_message_shallow_tuple (message : Val) : Option DateTime × Option Exc :=
  let _msg_str := match message with
    | .vdict _ => ([] : PyStr)
    | m => pyStr m
  let timestamp : Val := match message with
    | .vdict kvs => dictGet kvs "timestamp" (.vstr [])
    | _ => .vstr []
  let timestamp_str := match timestamp with
    | .vnone => ([] : PyStr)
    | t => pyStr t
  let cleaned := pyReplace [Char.ofNat 13] [' '] (pyReplace [Char.ofNat 10] [' ']
    (pyReplace [Char.ofNat 9] [' '] (pyStrip timestamp_str)))
  let cleaned2 := collapseWs cleaned
  let cleaned3 := pyStripChar (Char.ofNat 39) (pyStripChar (Char.ofNat 34) cleaned2)
  match parse_datetime_shallow_tuple cleaned3 with
  | (_, some err) => (none, some err)
  | (result, none) => (result, none)

/-- Level 5 (deep): same validation stage. -/
def validate_format_deep_tuple (datetime_str : Val) : Option DateTime × Option Exc :=
  match datetime_str with
  | .vstr s =>
    if s.isEmpty then (none, some (.valueError "Empty datetime string".data))
    else
      match strptimeYmdHMS s with
      | .ok dt => (some dt, none)
      | .error e => (none, some (.valueError ("Failed to parse datetime: ".data ++ e)))
  | v => (none, some (.typeError ("Expected string, got ".data ++ v.typeName)))

/-- Level 4 (deep): text normalization, explicit error forwarding. -/
def parse_datetime_deep_tuple (timestamp_str : PyStr) : Option DateTime × Option Exc :=
  let normalized := collapseWs timestamp_str
  let cleaned := pyReplace ['|'] [' '] (pyReplace [';'] [] (pyReplace [','] [] normalized))
  let cleaned2 := collapseWs cleaned
  let temp := pyLower (pyTitle cleaned2)
  let parts := pySplit temp
  let rejoined := joinSp parts
  match validate_format_deep_tuple (.vstr rejoined) with
  | (_, some err) => (none, some err)
  | (result, none) => (result, none)

/-- Level 3 (deep): timestamp extraction, explicit error forwarding. -/
def parse_message_deep_tuple (message : Val) : Option DateTime × Option Exc :=
  let timestamp : Val := match message with
    | .vdict kvs => dictGet kvs "timestamp" (.vstr [])
    | _ => .vstr []
  let timestamp_str := match timestamp with
    | .vnone => ([] : PyStr)
    | t => pyStr t
  let normalized := pyStrip timestamp_str
  let cleaned := pyReplace [Char.ofNat 13] [' '] (pyReplace [Char.ofNat 10] [' ']
    (pyReplace [Char.ofNat 9] [' '] normalized))
  match parse_datetime_deep_tuple cleaned with
  | (_, some err) => (none, some err)
  | (result, none) => (result, none)

/-- Level 2 (deep): discarded field concatenation, explicit forwarding. -/
def validate_message_deep_tuple (message : Val) : Option DateTime × Option Exc :=
  let msg_dict : List (String × Val) := match message with
    | .vdict kvs => kvs
    | _ => []
  let str_values := (msg_dict.map (fun kv => kv.2)).filterMap (fun v =>
    match v with
    | .vnone => none
    | v => some (pyStr v))
  let concatenated := joinSp str_values
  let _processed := pyLower (pyUpper (pyLower (pyStrip concatenated)))
  match parse_message_deep_tuple (.vdict msg_dict) with
  | (_, some err) => (none, some err)
  | (result, none) => (result, none)

/-- Level 1 (deep): discarded top-level normalization, explicit forwarding. -/
def process_batch_deep_tuple (message : Val) : Option DateTime × Option Exc :=
  let msg_str := pyStr message
  let processed := pyReplace [' ', ' '] [' '] (pyStrip msg_str)
  let _char_count := processed.length
  let _normalized := pyLower (pyUpper (pyLower processed))
  match validate_message_deep_tuple message with
  | (_, some err) => (none, some err)
  | (result, none) => (result, none)

/-- Loop of `run_shallow_tuple`: the `"message"` subscript sits outside any
handler, so a `KeyError` escapes the runner and aborts the batch — modelled
by the `Except` result. -/
def runTupleShallowLoop : List Val → Results → Except Exc Results
  | [], acc => .ok acc
  | test_case :: rest, acc =>
    match pySubscript test_case "message" with
    | .error e => .error e
    | .ok message =>
      match parse_message_shallow_tuple message with
      | (_, some err) => runTupleShallowLoop rest
          { acc with failure := acc.failure + 1, errors := acc.errors ++ [err.pyTypeName] }
      | (_, none) => runTupleShallowLoop rest { acc with success := acc.success + 1 }

/-- Runner `run_shallow_tuple(test_cases)`. -/
def run_shallow_tuple (test_cases : List Val) : Except Exc Results :=
  runTupleShallowLoop test_cases ⟨0, 0, []⟩

/-- Loop of `run_deep_tuple`. -/
def runTupleDeepLoop : List Val → Results → Except Exc Results
  | [], acc => .ok acc
  | test_case :: rest, acc =>
    match pySubscript test_case "message" with
    | .error e => .error e
    | .ok message =>
      match process_batch_deep_tuple message with
      | (_, some err) => runTupleDeepLoop rest
          { acc with failure := acc.failure + 1, errors := acc.errors ++ [err.pyTypeName] }
      | (_, none) => runTupleDeepLoop rest { acc with success := acc.success + 1 }

/-- Runner `run_deep_tuple(test_cases)`. -/
def run_deep_tuple (test_cases : List Val) : Except Exc Results :=
  runTupleDeepLoop test_cases ⟨0, 0, []⟩

/-! ## `benchmark_union.py`: the tagged-union strategy

Every stage returns `Result | Exception`; callers test the variant with
`isinstance(result, Exception)`. -/

/-- The union return type `datetime | Exception`. -/
inductive PyUnion where
  | dt (d : DateTime)
  | exc (e : Exc)
deriving DecidableEq

/-- Level 3 (shallow): the only level that returns errors. -/
def validate_format_shallow_union (datetime_str : Val) : PyUnion :=
  match datetime_str with
  | .vstr s =>
    if s.isEmpty then .exc (.valueError "Empty datetime string".data)
    else
      match strptimeYmdHMS s with
      | .ok dt => .dt dt
      | .error e => .exc (.valueError ("Failed to parse datetime: ".data ++ e))
  | v => .exc (.typeError ("Expected string, got ".data ++ v.typeName))

/-- Level 2 (shallow): text normalization; the source tests the variant and
returns `result` on either branch. -/
def parse_datetime_shallow_union (timestamp_str : PyStr) : PyUnion :=
  let normalized := collapseWs timestamp_str
  let cleaned := pyReplace ['|'] [' '] (pyReplace [';'] [] (pyReplace [','] [] normalized))
  let cleaned2 := collapseWs cleaned
  let temp := pyLower (pyTitle cleaned2)
  let parts := pySplit temp
  let rejoined := joinSp parts
  match validate_format_shallow_union (.vstr rejoined) with
  | .exc e => .exc e
  | result => result

/-- Level 1 (shallow): timestamp extraction, variant test before returning. -/
def parse_message_shallow_union (message : Val) : PyUnion :=
  let _msg_str := match message with
    | .vdict _ => ([] : PyStr)
    | m => pyStr m
  let timestamp : Val := match message with
    | .vdict kvs => dictGet kvs "timestamp" (.vstr [])
    | _ => .vstr []
  let timestamp_str := match timestamp with
    | .vnone => ([] : PyStr)
    | t => pyStr t
  let cleaned := pyReplace [Char.ofNat 13] [' '] (pyReplace [Char.ofNat 10] [' ']
    (pyReplace [Char.ofNat 9] [' '] (pyStrip timestamp_str)))
  let cleaned2 := collapseWs cleaned
  let cleaned3 := pyStripChar (Char.ofNat 39) (pyStripChar (Char.ofNat 34) cleaned2)
  match parse_datetime_shallow_union cleaned3 with
  | .exc e => .exc e
  | result => result

/-- Level 5 (deep): same validation stage. -/
def validate_format_deep_union (datetime_str : Val) : PyUnion :=
  match datetime_str with
  | .vstr s =>
    if s.isEmpty then .exc (.valueError "Empty datetime string".data)
    else
      match strptimeYmdHMS s with
      | .ok dt => .dt dt
      | .error e => .exc (.valueError ("Failed to parse datetime: ".data ++ e))
  | v => .exc (.typeError ("Expected string, got ".data ++ v.typeName))

/-- Level 4 (deep): text normalization, variant test before returning. -/
def parse_datetime_deep_union (timestamp_str : PyStr) : PyUnion :=
  let normalized := collapseWs timestamp_str
  let cleaned := pyReplace ['|'] [' '] (pyReplace [';'] [] (pyReplace [','] [] normalized))
  let cleaned2 := collapseWs cleaned
  let temp := pyLower (pyTitle cleaned2)
  let parts := pySplit temp
  let rejoined := joinSp parts
  match validate_format_deep_union (.vstr rejoined) with
  | .exc e => .exc e
  | result => result

/-- Level 3 (deep): timestamp extraction, variant test before returning. -/
def parse_message_deep_union (message : Val) : PyUnion :=
  let timestamp : Val := match message with
    | .vdict kvs => dictGet kvs "timestamp" (.vstr [])
    | _ => .vstr []
  let timestamp_str := match timestamp with
    | .vnone => ([] : PyStr)
    | t => pyStr t
  let normalized := pyStrip timestamp_str
  let cleaned := pyReplace [Char.ofNat 13] [' '] (pyReplace [Char.ofNat 10] [' ']
    (pyReplace [Char.ofNat 9] [' '] normalized))
  match parse_datetime_deep_union cleaned with
  | .exc e => .exc e
  | result => result

/-- Level 2 (deep): discarded field concatenation, variant test. -/
def validate_message_deep_union (message : Val) : PyUnion :=
  let msg_dict : List (String × Val) := match message with
    | .vdict kvs => kvs
    | _ => []
  let str_values := (msg_dict.map (fun kv => kv.2)).filterMap (fun v =>
    match v with
    | .vnone => none
    | v => some (pyStr v))
  let concatenated := joinSp str_values
  let _processed := pyLower (pyUpper (pyLower (pyStrip concatenated)))
  match parse_message_deep_union (.vdict msg_dict) with
  | .exc e => .exc e
  | result => result

/-- Level 1 (deep): discarded top-level normalization, variant test. -/
def process_batch_deep_union (message : Val) : PyUnion :=
  let msg_str := pyStr message
  let processed := pyReplace [' ', ' '] [' '] (pyStrip msg_str)
  let _char_count := processed.length
  let _normalized := pyLower (pyUpper (pyLower processed))
  match validate_message_deep_union message with
  | .exc e => .exc e
  | result => result

/-- Loop of `run_shallow_union`: as in the tuple runner, the `"message"`
subscript sits outside any handler, so a `KeyError` aborts the batch. -/
def runUnionShallowLoop : List Val → Results → Except Exc Results
  | [], acc => .ok acc
  | test_case :: rest, acc =>
    match pySubscript test_case "message" with
    | .error e => .error e
    | .ok message =>
      match parse_message_shallow_union message with
      | .exc e => runUnionShallowLoop rest
          { acc with failure := acc.failure + 1, errors := acc.errors ++ [e.pyTypeName] }
      | .dt _ => runUnionShallowLoop rest { acc with success := acc.success + 1 }

/-- Runner `run_shallow_union(test_cases)`. -/
def run_shallow_union (test_cases : List Val) : Except Exc Results :=
  runUnionShallowLoop test_cases ⟨0, 0, []⟩

/-- Loop of `run_deep_union`. -/
def runUnionDeepLoop : List Val → Results → Except Exc Results
  | [], acc => .ok acc
  | test_case :: rest, acc =>
    match pySubscript test_case "message" with
    | .error e => .error e
    | .ok message =>
      match process_batch_deep_union message with
      | .exc e => runUnionDeepLoop rest
          { acc with failure := acc.failure + 1, errors := acc.errors ++ [e.pyTypeName] }
      | .dt _ => runUnionDeepLoop rest { acc with success := acc.success + 1 }

/-- Runner `run_deep_union(test_cases)`. -/
def run_deep_union (test_cases : List Val) : Except Exc Results :=
  runUnionDeepLoop test_cases ⟨0, 0, []⟩

/-! ## `run_benchmarks.py`: stats extraction and aggregation

Profiler times are floats in the source; the claims about them concern the
zero-call guard and exact quotients, so they are modelled by rationals. -/

/-- One raw `pstats` entry `(cc, nc, tt, ct)` (the callers map is unused by
the extraction code and omitted). -/
structure FuncStat where
  cc : Nat
  nc : Nat
  tt : ℚ
  ct : ℚ
deriving DecidableEq

/-- One extracted per-stage entry of `function_times`. -/
structure StageStat where
  ncalls : Nat
  tottime : ℚ
  cumtime : ℚ
  percall_tot : ℚ
  percall_cum : ℚ
deriving DecidableEq

/-- Python `pattern in func_name` (substring containment). -/
def containsSub (needle : PyStr) : PyStr → Bool
  | [] => needle.isEmpty
  | c :: cs => needle.isPrefixOf (c :: cs) || containsSub needle cs

/-- The zero-initialised `function_times` table. -/
def initStats (func_patterns : List String) : List (String × StageStat) :=
  func_patterns.map (fun p => (p, ⟨0, 0, 0, 0, 0⟩))

/-- Overwrite the entry for pattern `k` (all fields are assigned together in
the source). -/
def setStat (m : List (String × StageStat)) (k : String) (e : StageStat) :
    List (String × StageStat) :=
  m.map (fun kv => if kv.1 = k then (kv.1, e) else kv)

/-- The entry written for a matching stats row: `tt / nc if nc > 0 else 0`. -/
def statOf (st : FuncStat) : StageStat :=
  ⟨st.nc, st.tt, st.ct,
    if 0 < st.nc then st.tt / (st.nc : ℚ) else 0,
    if 0 < st.nc then st.ct / (st.nc : ℚ) else 0⟩

/-- Loop of `extract_function_stats` over the raw stats rows: the first
pattern contained in the row's function name (then `break`) receives the
row's counts, times, and guarded per-call averages. -/
def extractLoop (func_patterns : List String) :
    List (String × FuncStat) → List (String × StageStat) → List (String × StageStat)
  | [], acc => acc
  | fs :: rest, acc =>
    match func_patterns.find? (fun p => containsSub p.data fs.1.data) with
    | some p => extractLoop func_patterns rest (setStat acc p (statOf fs.2))
    | none => extractLoop func_patterns rest acc

/-- Model of `extract_function_stats(stats, func_patterns)`. -/
def extract_function_stats (stats : List (String × FuncStat))
    (func_patterns : List String) : List (String × StageStat) :=
  extractLoop func_patterns stats (initStats func_patterns)

/-- Dictionary lookup in the extracted table. -/
def lookupStage (m : List (String × StageStat)) (p : String) : Option StageStat :=
  (m.find? (fun kv => kv.1 == p)).map (fun kv => kv.2)

/-- The reported `us_per_test` value of `save_results_json` (and of the
console/table printers): `(total_time / 1000) * 1000000`, with the divisor
hard-coded to `1000`. -/
def usPerTest (total_time : ℚ) : ℚ := total_time / 1000 * 1000000

/-- Modelled from the spec: the microseconds-per-test formula
`total_time / batch_size * 1e6` the aggregator is specified to report.
Used to compare the code's `usPerTest` against the specified formula. -/
def usPerTestSpec (total_time : ℚ) (batch_size : Nat) : ℚ :=
  total_time / (batch_size : ℚ) * 1000000

/-! ## Outcome classification and cross-strategy translation -/

/-- How a runner classifies one processed case: success, or a failure with
the recorded `type(e).__name__`. -/
inductive CaseClass where
  | success
  | failure (kind : String)
deriving DecidableEq

/-- Classification used by the exception runners (catch / no catch). -/
def classExc (r : Except Exc DateTime) : CaseClass :=
  match r with
  | .ok _ => .success
  | .error e => .failure e.pyTypeName

/-- Classification used by the tuple runners (`err is not None`). -/
def classPair (r : Option DateTime × Option Exc) : CaseClass :=
  match r.2 with
  | some e => .failure e.pyTypeName
  | none => .success

/-- Classification used by the union runners (`isinstance(result, Exception)`). -/
def classUnion (r : PyUnion) : CaseClass :=
  match r with
  | .exc e => .failure e.pyTypeName
  | .dt _ => .success

/-- The obvious translation from the raising result shape to the paired one. -/
def exceptToPair (r : Except Exc DateTime) : Option DateTime × Option Exc :=
  match r with
  | .ok dt => (some dt, none)
  | .error e => (none, some e)

/-- The obvious translation from the raising result shape to the union one. -/
def exceptToUnion (r : Except Exc DateTime) : PyUnion :=
  match r with
  | .ok dt => .dt dt
  | .error e => .exc e

/-- The cleaned timestamp text that the deep level 3 hands to level 4 (and
that the shallow level 1 computes before its extra whitespace collapse and
quote stripping): extract the `"timestamp"` field (empty for non-mappings and
for `None`), strip, and replace tab/newline/carriage-return by spaces. -/
def deepTimestampText (message : Val) : PyStr :=
  let timestamp : Val := match message with
    | .vdict kvs => dictGet kvs "timestamp" (.vstr [])
    | _ => .vstr []
  let timestamp_str := match timestamp with
    | .vnone => ([] : PyStr)
    | t => pyStr t
  pyReplace [Char.ofNat 13] [' '] (pyReplace [Char.ofNat 10] [' ']
    (pyReplace [Char.ofNat 9] [' '] (pyStrip timestamp_str)))

deriving instance DecidableEq for Except

/-- The per-entry property claimed of the extracted table: zero calls give
zero averages; positive calls give the exact quotients. -/
def GoodStat (e : StageStat) : Prop :=
  (e.ncalls = 0 → e.percall_tot = 0 ∧ e.percall_cum = 0) ∧
  (0 < e.ncalls → e.percall_tot = e.tottime / (e.ncalls : ℚ) ∧
    e.percall_cum = e.cumtime / (e.ncalls : ℚ))

/-- The C7 invariant: exactly one slot of a paired return is populated. -/
def exactlyOne (p : Option DateTime × Option Exc) : Prop :=
  (∃ dt, p = (some dt, none)) ∨ (∃ e, p = (none, some e))

/-! ## Cross-strategy equivalence lemmas

Each paired-return / union function is the image of the corresponding
raising function under the obvious translation of result shapes. -/

theorem exceptToPair_eq_some {X : Except Exc DateTime} {a : Option DateTime}
    {e : Exc} (h : exceptToPair X = (a, some e)) : a = none := by
  cases X <;> simp_all [exceptToPair]

theorem vf_shallow_pair (v : Val) :
    validate_format_shallow_tuple v = exceptToPair (validate_format_shallow_exc v) := by
  cases v <;> try rfl
  case vstr s =>
    simp only [validate_format_shallow_tuple, validate_format_shallow_exc]
    by_cases h : s.isEmpty
    · simp [h, exceptToPair]
    · simp only [if_neg h]
      cases strptimeYmdHMS s <;> rfl

theorem pd_shallow_pair (s : PyStr) :
    parse_datetime_shallow_tuple s = exceptToPair (parse_datetime_shallow_exc s) := by
  simp only [parse_datetime_shallow_tuple, parse_datetime_shallow_exc]
  rw [vf_shallow_pair]
  split
  · next a e heq => rw [exceptToPair_eq_some heq] at heq; exact heq.symm
  · next heq => exact heq.symm

theorem pm_shallow_pair (m : Val) :
    parse_message_shallow_tuple m = exceptToPair (parse_message_shallow_exc m) := by
  simp only [parse_message_shallow_tuple, parse_message_shallow_exc]
  rw [pd_shallow_pair]
  split
  · next a e heq => rw [exceptToPair_eq_some heq] at heq; exact heq.symm
  · next heq => exact heq.symm

theorem vf_deep_pair (v : Val) :
    validate_format_deep_tuple v = exceptToPair (validate_format_deep_exc v) := by
  cases v <;> try rfl
  case vstr s =>
    simp only [validate_format_deep_tuple, validate_format_deep_exc]
    by_cases h : s.isEmpty
    · simp [h, exceptToPair]
    · simp only [if_neg h]
      cases strptimeYmdHMS s <;> rfl

theorem pd_deep_pair (s : PyStr) :
    parse_datetime_deep_tuple s = exceptToPair (parse_datetime_deep_exc s) := by
  simp only [parse_datetime_deep_tuple, parse_datetime_deep_exc]
  rw [vf_deep_pair]
  split
  · next a e heq => rw [exceptToPair_eq_some heq] at heq; exact heq.symm
  · next heq => exact heq.symm

theorem pm_deep_pair (m : Val) :
    parse_message_deep_tuple m = exceptToPair (parse_message_deep_exc m) := by
  simp only [parse_message_deep_tuple, parse_message_deep_exc]
  rw [pd_deep_pair]
  split
  · next a e heq => rw [exceptToPair_eq_some heq] at heq; exact heq.symm
  · next heq => exact heq.symm

theorem vm_deep_pair (m : Val) :
    validate_message_deep_tuple m = exceptToPair (validate_message_deep_exc m) := by
  simp only [validate_message_deep_tuple, validate_message_deep_exc]
  rw [pm_deep_pair]
  split
  · next a e heq => rw [exceptToPair_eq_some heq] at heq; exact heq.symm
  · next heq => exact heq.symm

theorem pb_deep_pair (m : Val) :
    process_batch_deep_tuple m = exceptToPair (process_batch_deep_exc m) := by
  simp only [process_batch_deep_tuple, process_batch_deep_exc]
  rw [vm_deep_pair]
  split
  · next a e heq => rw [exceptToPair_eq_some heq] at heq; exact heq.symm
  · next heq => exact heq.symm

theorem vf_shallow_union (v : Val) :
    validate_format_shallow_union v = exceptToUnion (validate_format_shallow_exc v) := by
  cases v <;> try rfl
  case vstr s =>
    simp only [validate_format_shallow_union, validate_format_shallow_exc]
    by_cases h : s.isEmpty
    · simp [h, exceptToUnion]
    · simp only [if_neg h]
      cases strptimeYmdHMS s <;> rfl

theorem pd_shallow_union (s : PyStr) :
    parse_datetime_shallow_union s = exceptToUnion (parse_datetime_shallow_exc s) := by
  simp only [parse_datetime_shallow_union, parse_datetime_shallow_exc]
  rw [vf_shallow_union]
  split
  · next e heq => exact heq.symm
  · rfl

theorem pm_shallow_union (m : Val) :
    parse_message_shallow_union m = exceptToUnion (parse_message_shallow_exc m) := by
  simp only [parse_message_shallow_union, parse_message_shallow_exc]
  rw [pd_shallow_union]
  split
  · next e heq => exact heq.symm
  · rfl

theorem vf_deep_union (v : Val) :
    validate_format_deep_union v = exceptToUnion (validate_format_deep_exc v) := by
  cases v <;> try rfl
  case vstr s =>
    simp only [validate_format_deep_union, validate_format_deep_exc]
    by_cases h : s.isEmpty
    · simp [h, exceptToUnion]
    · simp only [if_neg h]
      cases strptimeYmdHMS s <;> rfl

theorem pd_deep_union (s : PyStr) :
    parse_datetime_deep_union s = exceptToUnion (parse_datetime_deep_exc s) := by
  simp only [parse_datetime_deep_union, parse_datetime_deep_exc]
  rw [vf_deep_union]
  split
  · next e heq => exact heq.symm
  · rfl

theorem pm_deep_union (m : Val) :
    parse_message_deep_union m = exceptToUnion (parse_message_deep_exc m) := by
  simp only [parse_message_deep_union, parse_message_deep_exc]
  rw [pd_deep_union]
  split
  · next e heq => exact heq.symm
  · rfl

theorem vm_deep_union (m : Val) :
    validate_message_deep_union m = exceptToUnion (validate_message_deep_exc m) := by
  simp only [validate_message_deep_union, validate_message_deep_exc]
  rw [pm_deep_union]
  split
  · next e heq => exact heq.symm
  · rfl

theorem pb_deep_union (m : Val) :
    process_batch_deep_union m = exceptToUnion (process_batch_deep_exc m) := by
  simp only [process_batch_deep_union, process_batch_deep_exc]
  rw [vm_deep_union]
  split
  · next e heq => exact heq.symm
  · rfl

/-! ## Whitespace split/join lemmas

`' '.join(s.split())` is idempotent; this is what makes the shallow and deep
extraction stages agree up to the shallow-only quote stripping. -/

theorem pySplitAux_append_nonspace (l : PyStr) :
    ∀ (acc r : PyStr), (∀ c ∈ l, isPySpace c = false) →
    pySplitAux (l ++ r) acc = pySplitAux r (l.reverse ++ acc) := by
  induction l with
  | nil => intro acc r _; simp
  | cons c cs ih =>
    intro acc r h
    have hc : isPySpace c = false := h c (List.mem_cons_self c cs)
    simp only [List.cons_append, pySplitAux, hc, Bool.false_eq_true, if_false,
      List.append_eq]
    rw [ih (c :: acc) r (fun x hx => h x (List.mem_cons_of_mem c hx))]
    simp [List.append_assoc]

theorem pySplitAux_nil_of_ne (acc : PyStr) (h : acc ≠ []) :
    pySplitAux [] acc = [acc.reverse] := by
  cases acc with
  | nil => exact absurd rfl h
  | cons a as => rfl

theorem pySplitAux_space_cons (c : Char) (cs acc : PyStr)
    (hc : isPySpace c = true) (h : acc ≠ []) :
    pySplitAux (c :: cs) acc = acc.reverse :: pySplitAux cs [] := by
  cases acc with
  | nil => exact absurd rfl h
  | cons a as => simp [pySplitAux, hc]

theorem pySplitAux_tokens (l : PyStr) :
    ∀ acc, (∀ c ∈ acc, isPySpace c = false) →
    ∀ t ∈ pySplitAux l acc, t ≠ [] ∧ ∀ c ∈ t, isPySpace c = false := by
  induction l with
  | nil =>
    intro acc hacc t ht
    cases acc with
    | nil => simp [pySplitAux] at ht
    | cons a as =>
      simp only [pySplitAux, List.mem_singleton] at ht
      subst ht
      refine ⟨by simp, fun c hc => hacc c (List.mem_reverse.mp hc)⟩
  | cons c cs ih =>
    intro acc hacc t ht
    by_cases hc : isPySpace c = true
    · cases acc with
      | nil =>
        rw [show pySplitAux (c :: cs) [] = pySplitAux cs [] by
          simp [pySplitAux, hc]] at ht
        exact ih [] (by simp) t ht
      | cons a as =>
        rw [pySplitAux_space_cons c cs (a :: as) hc (by simp)] at ht
        rcases List.mem_cons.mp ht with h1 | h2
        · subst h1
          refine ⟨by simp, fun x hx => hacc x (List.mem_reverse.mp hx)⟩
        · exact ih [] (by simp) t h2
    · rw [show pySplitAux (c :: cs) acc = pySplitAux cs (c :: acc) by
        simp [pySplitAux, hc]] at ht
      refine ih (c :: acc) ?_ t ht
      intro x hx
      rcases List.mem_cons.mp hx with h1 | h2
      · subst h1; simpa using hc
      · exact hacc x h2

theorem pySplit_tokens (l : PyStr) :
    ∀ t ∈ pySplit l, t ≠ [] ∧ ∀ c ∈ t, isPySpace c = false :=
  pySplitAux_tokens l [] (by simp)

theorem pySplit_joinSp (ts : List PyStr)
    (h : ∀ t ∈ ts, t ≠ [] ∧ ∀ c ∈ t, isPySpace c = false) :
    pySplit (joinSp ts) = ts := by
  induction ts with
  | nil => rfl
  | cons t ts ih =>
    obtain ⟨hne, hns⟩ := h t (List.mem_cons_self t ts)
    cases ts with
    | nil =>
      show pySplitAux (joinSp [t]) [] = [t]
      have h1 : joinSp [t] = t ++ [] := by simp [joinSp]
      rw [h1, pySplitAux_append_nonspace t [] [] hns,
        pySplitAux_nil_of_ne _ (by simp [hne]), List.append_nil,
        List.reverse_reverse]
    | cons t2 ts2 =>
      show pySplitAux (joinSp (t :: t2 :: ts2)) [] = t :: t2 :: ts2
      have h1 : joinSp (t :: t2 :: ts2) = t ++ ' ' :: joinSp (t2 :: ts2) := by
        simp [joinSp]
      rw [h1, pySplitAux_append_nonspace t [] _ hns, List.append_nil,
        pySplitAux_space_cons ' ' _ _ (by decide) (by simp [hne]),
        List.reverse_reverse]
      exact congrArg (t :: ·) (ih (fun t' ht' => h t' (List.mem_cons_of_mem _ ht')))

theorem pySplit_collapseWs (l : PyStr) : pySplit (collapseWs l) = pySplit l :=
  pySplit_joinSp (pySplit l) (pySplit_tokens l)

theorem collapseWs_idem (l : PyStr) : collapseWs (collapseWs l) = collapseWs l :=
  congrArg joinSp (pySplit_collapseWs l)

/-! ## Shallow vs deep pipeline comparison -/

theorem vf_deep_eq_shallow_exc (v : Val) :
    validate_format_deep_exc v = validate_format_shallow_exc v := by
  cases v <;> rfl

theorem pd_deep_eq_shallow_exc (s : PyStr) :
    parse_datetime_deep_exc s = parse_datetime_shallow_exc s := by
  simp only [parse_datetime_deep_exc, parse_datetime_shallow_exc,
    vf_deep_eq_shallow_exc]

theorem pb_deep_exc_eq (m : Val) :
    process_batch_deep_exc m = parse_datetime_deep_exc (deepTimestampText m) := by
  cases m <;> rfl

theorem pm_shallow_exc_eq (m : Val) :
    parse_message_shallow_exc m = parse_datetime_shallow_exc
      (pyStripChar (Char.ofNat 39) (pyStripChar (Char.ofNat 34)
        (collapseWs (deepTimestampText m)))) := by
  cases m <;> rfl

theorem pd_shallow_exc_collapseWs (s : PyStr) :
    parse_datetime_shallow_exc (collapseWs s) = parse_datetime_shallow_exc s := by
  simp only [parse_datetime_shallow_exc, collapseWs_idem]

/-- Shallow and deep raising pipelines agree on any message whose collapsed
cleaned timestamp text is unchanged by the shallow-only quote stripping. -/
theorem shallow_deep_exc (m : Val)
    (h : pyStripChar (Char.ofNat 39) (pyStripChar (Char.ofNat 34)
          (collapseWs (deepTimestampText m))) = collapseWs (deepTimestampText m)) :
    parse_message_shallow_exc m = process_batch_deep_exc m := by
  rw [pm_shallow_exc_eq, h, pb_deep_exc_eq, pd_deep_eq_shallow_exc,
    pd_shallow_exc_collapseWs]

/-! ## Runner tally lemmas -/

theorem runExcShallowLoop_counts (tcs : List Val) :
    ∀ acc, (runExcShallowLoop tcs acc).success + (runExcShallowLoop tcs acc).failure
      = acc.success + acc.failure + tcs.length := by
  induction tcs with
  | nil => intro acc; simp [runExcShallowLoop]
  | cons tc rest ih =>
    intro acc
    simp only [runExcShallowLoop]
    split
    · simp [ih]; omega
    · split
      · simp [ih]; omega
      · simp [ih]; omega

theorem runExcDeepLoop_counts (tcs : List Val) :
    ∀ acc, (runExcDeepLoop tcs acc).success + (runExcDeepLoop tcs acc).failure
      = acc.success + acc.failure + tcs.length := by
  induction tcs with
  | nil => intro acc; simp [runExcDeepLoop]
  | cons tc rest ih =>
    intro acc
    simp only [runExcDeepLoop]
    split
    · simp [ih]; omega
    · split
      · simp [ih]; omega
      · simp [ih]; omega

theorem runTupleShallowLoop_counts (tcs : List Val) :
    ∀ acc r, runTupleShallowLoop tcs acc = .ok r →
      r.success + r.failure = acc.success + acc.failure + tcs.length := by
  induction tcs with
  | nil =>
    intro acc r h
    simp only [runTupleShallowLoop, Except.ok.injEq] at h
    subst h; simp
  | cons tc rest ih =>
    intro acc r h
    simp only [runTupleShallowLoop] at h
    split at h
    · simp at h
    · split at h
      · have := ih _ r h; simp at this; simp [this]; omega
      · have := ih _ r h; simp at this; simp [this]; omega

theorem runTupleDeepLoop_counts (tcs : List Val) :
    ∀ acc r, runTupleDeepLoop tcs acc = .ok r →
      r.success + r.failure = acc.success + acc.failure + tcs.length := by
  induction tcs with
  | nil =>
    intro acc r h
    simp only [runTupleDeepLoop, Except.ok.injEq] at h
    subst h; simp
  | cons tc rest ih =>
    intro acc r h
    simp only [runTupleDeepLoop] at h
    split at h
    · simp at h
    · split at h
      · have := ih _ r h; simp at this; simp [this]; omega
      · have := ih _ r h; simp at this; simp [this]; omega

theorem runUnionShallowLoop_counts (tcs : List Val) :
    ∀ acc r, runUnionShallowLoop tcs acc = .ok r →
      r.success + r.failure = acc.success + acc.failure + tcs.length := by
  induction tcs with
  | nil =>
    intro acc r h
    simp only [runUnionShallowLoop, Except.ok.injEq] at h
    subst h; simp
  | cons tc rest ih =>
    intro acc r h
    simp only [runUnionShallowLoop] at h
    split at h
    · simp at h
    · split at h
      · have := ih _ r h; simp at this; simp [this]; omega
      · have := ih _ r h; simp at this; simp [this]; omega

theorem runUnionDeepLoop_counts (tcs : List Val) :
    ∀ acc r, runUnionDeepLoop tcs acc = .ok r →
      r.success + r.failure = acc.success + acc.failure + tcs.length := by
  induction tcs with
  | nil =>
    intro acc r h
    simp only [runUnionDeepLoop, Except.ok.injEq] at h
    subst h; simp
  | cons tc rest ih =>
    intro acc r h
    simp only [runUnionDeepLoop] at h
    split at h
    · simp at h
    · split at h
      · have := ih _ r h; simp at this; simp [this]; omega
      · have := ih _ r h; simp at this; simp [this]; omega

/-! ## Stats extraction invariant -/

theorem statOf_good (st : FuncStat) : GoodStat (statOf st) := by
  unfold GoodStat statOf
  refine ⟨fun h => ?_, fun h => ?_⟩
  · simp only at h ⊢
    simp [h]
  · simp only at h ⊢
    simp [h]

theorem setStat_good (m : List (String × StageStat)) (k : String) (e : StageStat)
    (hm : ∀ kv ∈ m, GoodStat kv.2) (he : GoodStat e) :
    ∀ kv ∈ setStat m k e, GoodStat kv.2 := by
  intro kv hkv
  rcases List.mem_map.mp hkv with ⟨kv0, h0, hmap⟩
  by_cases hk : kv0.1 = k
  · rw [if_pos hk] at hmap
    subst hmap
    exact he
  · rw [if_neg hk] at hmap
    subst hmap
    exact hm kv0 h0

theorem initStats_good (pats : List String) :
    ∀ kv ∈ initStats pats, GoodStat kv.2 := by
  intro kv hkv
  rcases List.mem_map.mp hkv with ⟨p, _, hmap⟩
  subst hmap
  exact ⟨fun _ => ⟨rfl, rfl⟩, fun h => absurd h (by simp)⟩

theorem extractLoop_good (pats : List String) (stats : List (String × FuncStat)) :
    ∀ acc, (∀ kv ∈ acc, GoodStat kv.2) →
    ∀ kv ∈ extractLoop pats stats acc, GoodStat kv.2 := by
  induction stats with
  | nil =>
    intro acc h kv hkv
    exact h kv (by simpa [extractLoop] using hkv)
  | cons fs rest ih =>
    intro acc h kv hkv
    simp only [extractLoop] at hkv
    cases hf : pats.find? (fun p => containsSub p.data fs.1.data) with
    | some p =>
      rw [hf] at hkv
      exact ih _ (setStat_good acc p (statOf fs.2) h (statOf_good fs.2)) kv hkv
    | none =>
      rw [hf] at hkv
      exact ih _ h kv hkv

/-! ## Claim theorems -/

/-- C1 (counterexample): the claim says the message `{"timestamp": 123456}`
fails with `TypeMismatch` (`TypeError`) under every strategy and depth.  It
does fail everywhere, but the extraction stage coerces the payload with
`str(timestamp)`, so the validator receives the non-empty text `"123456"`,
which fails the datetime pattern with a `ValueError` (`ValueInvalid`), not a
`TypeError`: already the shallow raising pipeline refutes the stated kind. -/
theorem claim1_counterexample :
    classExc (parse_message_shallow_exc (Val.vdict [("timestamp", Val.vint 123456)]))
      = CaseClass.failure "ValueError" ∧
    CaseClass.failure "ValueError" ≠ CaseClass.failure "TypeError" := by
  constructor
  · decide
  · decide

/-- C1 (amended): for the message `{"timestamp": 123456}`, every strategy at
either depth fails, and the failure kind is `ValueInvalid` (`ValueError`),
because extraction coerces the payload to the text `"123456"`, which fails
the fixed datetime pattern. -/
theorem claim1_amended :
    classExc (parse_message_shallow_exc (Val.vdict [("timestamp", Val.vint 123456)]))
      = CaseClass.failure "ValueError" ∧
    classExc (process_batch_deep_exc (Val.vdict [("timestamp", Val.vint 123456)]))
      = CaseClass.failure "ValueError" ∧
    classPair (parse_message_shallow_tuple (Val.vdict [("timestamp", Val.vint 123456)]))
      = CaseClass.failure "ValueError" ∧
    classPair (process_batch_deep_tuple (Val.vdict [("timestamp", Val.vint 123456)]))
      = CaseClass.failure "ValueError" ∧
    classUnion (parse_message_shallow_union (Val.vdict [("timestamp", Val.vint 123456)]))
      = CaseClass.failure "ValueError" ∧
    classUnion (process_batch_deep_union (Val.vdict [("timestamp", Val.vint 123456)]))
      = CaseClass.failure "ValueError" := by
  refine ⟨by decide, by decide, by decide, by decide, by decide, by decide⟩

/-- C2: for every message, the three strategies at the same depth classify it
identically (success vs failure), and on failure record the same kind
(`type(e).__name__`, i.e. `TypeError` vs `ValueError`). -/
theorem claim2_strategies_agree (m : Val) :
    classPair (parse_message_shallow_tuple m) = classExc (parse_message_shallow_exc m) ∧
    classUnion (parse_message_shallow_union m) = classExc (parse_message_shallow_exc m) ∧
    classPair (process_batch_deep_tuple m) = classExc (process_batch_deep_exc m) ∧
    classUnion (process_batch_deep_union m) = classExc (process_batch_deep_exc m) := by
  refine ⟨?_, ?_, ?_, ?_⟩
  · rw [pm_shallow_pair]
    cases parse_message_shallow_exc m <;> rfl
  · rw [pm_shallow_union]
    cases parse_message_shallow_exc m <;> rfl
  · rw [pb_deep_pair]
    cases process_batch_deep_exc m <;> rfl
  · rw [pb_deep_union]
    cases process_batch_deep_exc m <;> rfl

/-- C3 (counterexample): the claim says shallow and deep pipelines produce
the same per-case outcome for every message.  The shallow extraction stage
additionally strips surrounding quote characters (`.strip('"').strip("'")`),
which the deep extraction stage never does, so the message
`{"timestamp": "\"2024-01-15 10:30:45\""}` succeeds at shallow depth and
fails (`ValueError`) at deep depth under the raising strategy. -/
theorem claim3_counterexample :
    classExc (parse_message_shallow_exc (Val.vdict [("timestamp",
        Val.vstr (Char.ofNat 34 :: ("2024-01-15 10:30:45".data ++ [Char.ofNat 34])))]))
      = CaseClass.success ∧
    classExc (process_batch_deep_exc (Val.vdict [("timestamp",
        Val.vstr (Char.ofNat 34 :: ("2024-01-15 10:30:45".data ++ [Char.ofNat 34])))]))
      = CaseClass.failure "ValueError" ∧
    CaseClass.success ≠ CaseClass.failure "ValueError" := by
  refine ⟨by decide, by decide, by decide⟩

/-- C3 (amended): for every message whose cleaned, whitespace-collapsed
timestamp text is unchanged by quote stripping (i.e. it neither starts nor
ends with a quote character), the shallow (3-stage) and deep (5-stage)
pipelines of each strategy return the same result — in particular the same
success/failure classification and failure kind.  This is the original claim
restricted by exactly the quote-stripping asymmetry exhibited by the
counterexample. -/
theorem claim3_amended (m : Val)
    (h : pyStripChar (Char.ofNat 39) (pyStripChar (Char.ofNat 34)
          (collapseWs (deepTimestampText m))) = collapseWs (deepTimestampText m)) :
    parse_message_shallow_exc m = process_batch_deep_exc m ∧
    parse_message_shallow_tuple m = process_batch_deep_tuple m ∧
    parse_message_shallow_union m = process_batch_deep_union m := by
  have he := shallow_deep_exc m h
  refine ⟨he, ?_, ?_⟩
  · rw [pm_shallow_pair, pb_deep_pair, he]
  · rw [pm_shallow_union, pb_deep_union, he]

/-- Witness for C3 (amended) at the message
`{"timestamp": "2024-01-15 10:30:45"}`. -/
theorem claim3_witness :
    parse_message_shallow_exc (Val.vdict [("timestamp", Val.vstr "2024-01-15 10:30:45".data)])
      = process_batch_deep_exc (Val.vdict [("timestamp", Val.vstr "2024-01-15 10:30:45".data)]) ∧
    parse_message_shallow_tuple (Val.vdict [("timestamp", Val.vstr "2024-01-15 10:30:45".data)])
      = process_batch_deep_tuple (Val.vdict [("timestamp", Val.vstr "2024-01-15 10:30:45".data)]) ∧
    parse_message_shallow_union (Val.vdict [("timestamp", Val.vstr "2024-01-15 10:30:45".data)])
      = process_batch_deep_union (Val.vdict [("timestamp", Val.vstr "2024-01-15 10:30:45".data)]) :=
  claim3_amended (Val.vdict [("timestamp", Val.vstr "2024-01-15 10:30:45".data)]) (by decide)

/-- C4 (counterexample): the claim says the reported microseconds-per-test
equals `t / n * 1e6` for the actual batch size `n`.  The code computes
`(total_time / 1000) * 1000000` with the divisor hard-coded to 1000: for a
batch of two messages with total time 1 the code reports 1000 µs while the
specified formula gives 500000 µs. -/
theorem claim4_counterexample :
    usPerTest 1 = 1000 ∧
    usPerTestSpec 1 ([Val.vnone, Val.vnone].length) = 500000 ∧
    usPerTest 1 ≠ usPerTestSpec 1 ([Val.vnone, Val.vnone].length) := by
  refine ⟨?_, ?_, ?_⟩ <;> norm_num [usPerTest, usPerTestSpec]

/-- C4 (amended): the reported microseconds-per-test equals
`t / n * 1e6` exactly when the batch size `n` is 1000 (the size the shipped
corpus generator always produces); the code divides by the constant 1000
rather than the actual batch size. -/
theorem claim4_amended (t : ℚ) (n : Nat) (h : n = 1000) :
    usPerTest t = usPerTestSpec t n := by
  subst h
  unfold usPerTest usPerTestSpec
  norm_num

/-- Witness for C4 (amended) at `t = 7`, `n = 1000`. -/
theorem claim4_witness : usPerTest 7 = usPerTestSpec 7 1000 :=
  claim4_amended 7 1000 rfl

/-- C5: for a message whose `"timestamp"` field is the text
`"2024-01-15 10:30:45"`, with any extra fields, every strategy at either
depth succeeds and returns the parsed calendar timestamp 2024-01-15T10:30:45. -/
theorem claim5_valid_timestamp (rest : List (String × Val)) :
    parse_message_shallow_exc
        (Val.vdict (("timestamp", Val.vstr "2024-01-15 10:30:45".data) :: rest))
      = .ok ⟨2024, 1, 15, 10, 30, 45⟩ ∧
    process_batch_deep_exc
        (Val.vdict (("timestamp", Val.vstr "2024-01-15 10:30:45".data) :: rest))
      = .ok ⟨2024, 1, 15, 10, 30, 45⟩ ∧
    parse_message_shallow_tuple
        (Val.vdict (("timestamp", Val.vstr "2024-01-15 10:30:45".data) :: rest))
      = (some ⟨2024, 1, 15, 10, 30, 45⟩, none) ∧
    process_batch_deep_tuple
        (Val.vdict (("timestamp", Val.vstr "2024-01-15 10:30:45".data) :: rest))
      = (some ⟨2024, 1, 15, 10, 30, 45⟩, none) ∧
    parse_message_shallow_union
        (Val.vdict (("timestamp", Val.vstr "2024-01-15 10:30:45".data) :: rest))
      = .dt ⟨2024, 1, 15, 10, 30, 45⟩ ∧
    process_batch_deep_union
        (Val.vdict (("timestamp", Val.vstr "2024-01-15 10:30:45".data) :: rest))
      = .dt ⟨2024, 1, 15, 10, 30, 45⟩ := by
  have hfind : (("timestamp", Val.vstr "2024-01-15 10:30:45".data) :: rest).find?
      (fun kv => kv.1 == "timestamp")
      = some ("timestamp", Val.vstr "2024-01-15 10:30:45".data) :=
    List.find?_cons_of_pos _ (by decide)
  have hd : deepTimestampText
      (Val.vdict (("timestamp", Val.vstr "2024-01-15 10:30:45".data) :: rest))
      = "2024-01-15 10:30:45".data := by
    simp only [deepTimestampText, dictGet, hfind]
    decide
  have he : parse_message_shallow_exc
      (Val.vdict (("timestamp", Val.vstr "2024-01-15 10:30:45".data) :: rest))
      = .ok ⟨2024, 1, 15, 10, 30, 45⟩ := by
    rw [pm_shallow_exc_eq, hd]
    decide
  have hde : process_batch_deep_exc
      (Val.vdict (("timestamp", Val.vstr "2024-01-15 10:30:45".data) :: rest))
      = .ok ⟨2024, 1, 15, 10, 30, 45⟩ := by
    rw [pb_deep_exc_eq, hd]
    decide
  refine ⟨he, hde, ?_, ?_, ?_, ?_⟩
  · rw [pm_shallow_pair, he]; rfl
  · rw [pb_deep_pair, hde]; rfl
  · rw [pm_shallow_union, he]; rfl
  · rw [pb_deep_union, hde]; rfl

/-- C6: for `None` or any non-mapping message, every strategy at either depth
fails with `ValueInvalid` carrying the "empty" complaint
(`ValueError("Empty datetime string")`): extraction yields empty text for
non-mapping inputs, never a `TypeMismatch`. -/
theorem claim6_non_mapping (m : Val) (h : m.isDict = false) :
    parse_message_shallow_exc m = .error (.valueError "Empty datetime string".data) ∧
    process_batch_deep_exc m = .error (.valueError "Empty datetime string".data) ∧
    parse_message_shallow_tuple m
      = (none, some (.valueError "Empty datetime string".data)) ∧
    process_batch_deep_tuple m
      = (none, some (.valueError "Empty datetime string".data)) ∧
    parse_message_shallow_union m = .exc (.valueError "Empty datetime string".data) ∧
    process_batch_deep_union m = .exc (.valueError "Empty datetime string".data) := by
  have hd : deepTimestampText m = [] := by
    cases m with
    | vdict kvs => simp [Val.isDict] at h
    | vstr s => rfl
    | vint n => rfl
    | vbool b => rfl
    | vnone => rfl
    | vlist xs => rfl
  have he : parse_message_shallow_exc m
      = .error (.valueError "Empty datetime string".data) := by
    rw [pm_shallow_exc_eq, hd]
    decide
  have hde : process_batch_deep_exc m
      = .error (.valueError "Empty datetime string".data) := by
    rw [pb_deep_exc_eq, hd]
    decide
  refine ⟨he, hde, ?_, ?_, ?_, ?_⟩
  · rw [pm_shallow_pair, he]; rfl
  · rw [pb_deep_pair, hde]; rfl
  · rw [pm_shallow_union, he]; rfl
  · rw [pb_deep_union, hde]; rfl

/-- Witness for C6 at the message `None`. -/
theorem claim6_witness :
    parse_message_shallow_exc Val.vnone
      = .error (.valueError "Empty datetime string".data) ∧
    process_batch_deep_exc Val.vnone
      = .error (.valueError "Empty datetime string".data) ∧
    parse_message_shallow_tuple Val.vnone
      = (none, some (.valueError "Empty datetime string".data)) ∧
    process_batch_deep_tuple Val.vnone
      = (none, some (.valueError "Empty datetime string".data)) ∧
    parse_message_shallow_union Val.vnone
      = .exc (.valueError "Empty datetime string".data) ∧
    process_batch_deep_union Val.vnone
      = .exc (.valueError "Empty datetime string".data) :=
  claim6_non_mapping Val.vnone rfl

theorem exceptToPair_exactlyOne (X : Except Exc DateTime) :
    exactlyOne (exceptToPair X) := by
  cases X with
  | ok dt => exact .inl ⟨dt, rfl⟩
  | error e => exact .inr ⟨e, rfl⟩

/-- C7: every function of the paired-return strategy returns a pair with
exactly one slot populated — a timestamp with no error, or an error with no
timestamp; never both, never neither. -/
theorem claim7_exactly_one (v : Val) (s : PyStr) (m : Val) :
    exactlyOne (validate_format_shallow_tuple v) ∧
    exactlyOne (parse_datetime_shallow_tuple s) ∧
    exactlyOne (parse_message_shallow_tuple m) ∧
    exactlyOne (validate_format_deep_tuple v) ∧
    exactlyOne (parse_datetime_deep_tuple s) ∧
    exactlyOne (parse_message_deep_tuple m) ∧
    exactlyOne (validate_message_deep_tuple m) ∧
    exactlyOne (process_batch_deep_tuple m) := by
  refine ⟨?_, ?_, ?_, ?_, ?_, ?_, ?_, ?_⟩
  · rw [vf_shallow_pair]; exact exceptToPair_exactlyOne _
  · rw [pd_shallow_pair]; exact exceptToPair_exactlyOne _
  · rw [pm_shallow_pair]; exact exceptToPair_exactlyOne _
  · rw [vf_deep_pair]; exact exceptToPair_exactlyOne _
  · rw [pd_deep_pair]; exact exceptToPair_exactlyOne _
  · rw [pm_deep_pair]; exact exceptToPair_exactlyOne _
  · rw [vm_deep_pair]; exact exceptToPair_exactlyOne _
  · rw [pb_deep_pair]; exact exceptToPair_exactlyOne _

/-- C8: for every batch and every runner, whenever the run completes,
`success_count + failure_count` equals the batch size.  (The exception
runners always complete; the tuple/union runners complete whenever no
`KeyError` escapes, which the `Except.ok` hypothesis expresses.) -/
theorem claim8_counts (test_cases : List Val) :
    ((run_shallow_exc test_cases).success + (run_shallow_exc test_cases).failure
      = test_cases.length) ∧
    ((run_deep_exc test_cases).success + (run_deep_exc test_cases).failure
      = test_cases.length) ∧
    (∀ r, run_shallow_tuple test_cases = .ok r →
      r.success + r.failure = test_cases.length) ∧
    (∀ r, run_deep_tuple test_cases = .ok r →
      r.success + r.failure = test_cases.length) ∧
    (∀ r, run_shallow_union test_cases = .ok r →
      r.success + r.failure = test_cases.length) ∧
    (∀ r, run_deep_union test_cases = .ok r →
      r.success + r.failure = test_cases.length) := by
  refine ⟨?_, ?_, ?_, ?_, ?_, ?_⟩
  · simpa using runExcShallowLoop_counts test_cases ⟨0, 0, []⟩
  · simpa using runExcDeepLoop_counts test_cases ⟨0, 0, []⟩
  · intro r h
    simpa using runTupleShallowLoop_counts test_cases ⟨0, 0, []⟩ r h
  · intro r h
    simpa using runTupleDeepLoop_counts test_cases ⟨0, 0, []⟩ r h
  · intro r h
    simpa using runUnionShallowLoop_counts test_cases ⟨0, 0, []⟩ r h
  · intro r h
    simpa using runUnionDeepLoop_counts test_cases ⟨0, 0, []⟩ r h

/-- Witness for C8 on a singleton batch processed by the tuple runner. -/
theorem claim8_witness :
    run_shallow_tuple [Val.vdict [("message", Val.vnone)]]
      = .ok ⟨0, 1, ["ValueError"]⟩ ∧
    Results.success ⟨0, 1, ["ValueError"]⟩ + Results.failure ⟨0, 1, ["ValueError"]⟩
      = [Val.vdict [("message", Val.vnone)]].length :=
  ⟨by decide,
    (claim8_counts [Val.vdict [("message", Val.vnone)]]).2.2.1
      ⟨0, 1, ["ValueError"]⟩ (by decide)⟩

/-- C9: every entry of the extracted per-stage table has zero per-call
averages when its call count is zero (no division error), and the exact
quotients `tottime/ncalls`, `cumtime/ncalls` when the call count is
positive. -/
theorem claim9_stats (stats : List (String × FuncStat)) (pats : List String)
    (p : String) (e : StageStat)
    (h : lookupStage (extract_function_stats stats pats) p = some e) :
    (e.ncalls = 0 → e.percall_tot = 0 ∧ e.percall_cum = 0) ∧
    (0 < e.ncalls → e.percall_tot = e.tottime / (e.ncalls : ℚ) ∧
      e.percall_cum = e.cumtime / (e.ncalls : ℚ)) := by
  unfold lookupStage at h
  rcases Option.map_eq_some'.mp h with ⟨kv, hfind, hkv⟩
  have hmem : kv ∈ extract_function_stats stats pats :=
    List.mem_of_find?_eq_some hfind
  have hg : GoodStat kv.2 :=
    extractLoop_good pats stats (initStats pats) (initStats_good pats) kv hmem
  rw [hkv] at hg
  exact hg

/-- Witness for C9 on a one-row stats table with two recorded calls. -/
theorem claim9_witness :
    ((⟨2, 1, 3, 1 / 2, 3 / 2⟩ : StageStat).ncalls = 0 →
      (⟨2, 1, 3, 1 / 2, 3 / 2⟩ : StageStat).percall_tot = 0 ∧
      (⟨2, 1, 3, 1 / 2, 3 / 2⟩ : StageStat).percall_cum = 0) ∧
    (0 < (⟨2, 1, 3, 1 / 2, 3 / 2⟩ : StageStat).ncalls →
      (⟨2, 1, 3, 1 / 2, 3 / 2⟩ : StageStat).percall_tot
        = (⟨2, 1, 3, 1 / 2, 3 / 2⟩ : StageStat).tottime
          / ((⟨2, 1, 3, 1 / 2, 3 / 2⟩ : StageStat).ncalls : ℚ) ∧
      (⟨2, 1, 3, 1 / 2, 3 / 2⟩ : StageStat).percall_cum
        = (⟨2, 1, 3, 1 / 2, 3 / 2⟩ : StageStat).cumtime
          / ((⟨2, 1, 3, 1 / 2, 3 / 2⟩ : StageStat).ncalls : ℚ)) :=
  claim9_stats [("validate_format_shallow_exc", ⟨3, 2, 1, 3⟩)]
    ["validate_format_shallow_exc"] "validate_format_shallow_exc"
    ⟨2, 1, 3, 1 / 2, 3 / 2⟩ (by rfl)

/-- C10: on a test-case record lacking the `"message"` key, the raising
runners tally the case as a failure recording `"KeyError"` and continue with
the rest of the batch, while the tuple and union runners let the `KeyError`
escape, aborting the batch. -/
theorem claim10_divergence (kvs : List (String × Val)) (rest : List Val)
    (h : kvs.find? (fun kv => kv.1 == "message") = none) :
    run_shallow_exc (Val.vdict kvs :: rest)
      = runExcShallowLoop rest ⟨0, 1, ["KeyError"]⟩ ∧
    run_deep_exc (Val.vdict kvs :: rest)
      = runExcDeepLoop rest ⟨0, 1, ["KeyError"]⟩ ∧
    run_shallow_tuple (Val.vdict kvs :: rest)
      = .error (.keyError (pyQuoteRepr "message".data)) ∧
    run_deep_tuple (Val.vdict kvs :: rest)
      = .error (.keyError (pyQuoteRepr "message".data)) ∧
    run_shallow_union (Val.vdict kvs :: rest)
      = .error (.keyError (pyQuoteRepr "message".data)) ∧
    run_deep_union (Val.vdict kvs :: rest)
      = .error (.keyError (pyQuoteRepr "message".data)) := by
  have hsub : pySubscript (Val.vdict kvs) "message"
      = .error (.keyError (pyQuoteRepr "message".data)) := by
    simp [pySubscript, h]
  refine ⟨?_, ?_, ?_, ?_, ?_, ?_⟩
  · simp [run_shallow_exc, runExcShallowLoop, hsub, Exc.pyTypeName]
  · simp [run_deep_exc, runExcDeepLoop, hsub, Exc.pyTypeName]
  · simp [run_shallow_tuple, runTupleShallowLoop, hsub]
  · simp [run_deep_tuple, runTupleDeepLoop, hsub]
  · simp [run_shallow_union, runUnionShallowLoop, hsub]
  · simp [run_deep_union, runUnionDeepLoop, hsub]

/-- Witness for C10 on the record `{"id": 7}` followed by an empty rest. -/
theorem claim10_witness :
    run_shallow_exc [Val.vdict [("id", Val.vint 7)]]
      = runExcShallowLoop [] ⟨0, 1, ["KeyError"]⟩ ∧
    run_deep_exc [Val.vdict [("id", Val.vint 7)]]
      = runExcDeepLoop [] ⟨0, 1, ["KeyError"]⟩ ∧
    run_shallow_tuple [Val.vdict [("id", Val.vint 7)]]
      = .error (.keyError (pyQuoteRepr "message".data)) ∧
    run_deep_tuple [Val.vdict [("id", Val.vint 7)]]
      = .error (.keyError (pyQuoteRepr "message".data)) ∧
    run_shallow_union [Val.vdict [("id", Val.vint 7)]]
      = .error (.keyError (pyQuoteRepr "message".data)) ∧
    run_deep_union [Val.vdict [("id", Val.vint 7)]]
      = .error (.keyError (pyQuoteRepr "message".data)) :=
  claim10_divergence [("id", Val.vint 7)] [] (by rfl)
